import Mathlib

/-!
Shallow embedding of the drone safety system (src/src/safety_system.py,
class SafetyMonitor) and of its log-export file format.

Telemetry values, thresholds and coordinates are modelled as real numbers.
Side effects are made explicit: each check returns the updated monitor
state (the safety log may grow) together with its pass/fail result, and
the emergency-handling operations return the list of vehicle commands
they issue. Printing to stdout has no observable effect on the monitor
state and is not modelled.
-/

namespace SafetySystem

/-- The subset of the external vehicle interface the safety monitor reads
and writes: position (lat/lon/alt of location.global_relative_frame),
battery.level, attitude pitch/roll in radians, and the flight mode. -/
structure Vehicle where
  lat : ℝ
  lon : ℝ
  alt : ℝ
  batteryLevel : ℝ
  pitch : ℝ
  roll : ℝ
  mode : String


/-- The configuration thresholds read in SafetyMonitor.__init__
(max_distance is read but never used by any operation modelled here). -/
structure Config where
  max_altitude : ℝ
  min_battery : ℝ
  max_tilt_angle : ℝ
  geofence_enabled : Bool
  geofence_radius : ℝ


/-- A safety-log message, carrying the measured values and thresholds the
source interpolates into its diagnostic f-strings. -/
inductive Warning where
  | altitudeExceeded (current max : ℝ)
  | lowBattery (level min : ℝ)
  | excessiveTilt (pitchDeg rollDeg : ℝ)
  | geofenceBreach (distance radius : ℝ)


/-- A command issued to the vehicle interface: the only command the
source issues is an assignment to vehicle.mode. -/
inductive Command where
  | setMode (mode : String)
deriving DecidableEq


/-- The mutable state of a SafetyMonitor instance. -/
structure MonitorState where
  vehicle : Option Vehicle
  config : Config
  home_lat : Option ℝ
  home_lon : Option ℝ
  monitoring : Bool
  emergency_triggered : Bool
  safety_log : List Warning


/-- math.radians: degrees to radians. -/
noncomputable def radians (x : ℝ) : ℝ := x * Real.pi / 180

/-- math.degrees: radians to degrees. -/
noncomputable def degrees (x : ℝ) : ℝ := x * 180 / Real.pi

/-- math.atan2 (the standard two-argument arctangent). The haversine code
only ever reaches the first branch (its second argument is positive)
or computes atan2 of nonnegative arguments. -/
noncomputable def atan2 (y x : ℝ) : ℝ :=
  if 0 < x then Real.arctan (y / x)
  else if x < 0 then
    (if 0 ≤ y then Real.arctan (y / x) + Real.pi else Real.arctan (y / x) - Real.pi)
  else if 0 < y then Real.pi / 2
  else if y < 0 then -(Real.pi / 2)
  else 0

/-- SafetyMonitor.calculate_distance: haversine great-circle distance on a
sphere of radius 6 371 000 m. -/
noncomputable def calculate_distance (lat1 lon1 lat2 lon2 : ℝ) : ℝ :=
  let R : ℝ := 6371000
  let lat1_rad := radians lat1
  let lat2_rad := radians lat2
  let delta_lat := radians (lat2 - lat1)
  let delta_lon := radians (lon2 - lon1)
  let a := Real.sin (delta_lat / 2) ^ 2 +
    Real.cos lat1_rad * Real.cos lat2_rad * Real.sin (delta_lon / 2) ^ 2
  let c := 2 * atan2 (Real.sqrt a) (Real.sqrt (1 - a))
  R * c

/-- SafetyMonitor.log_warning: append one entry to the safety log
(the wall-clock timestamp prefix is modelled separately, in the
file-format development below). -/
def log_warning (s : MonitorState) (w : Warning) : MonitorState :=
  {s with safety_log := s.safety_log ++ [w]}

/-- SafetyMonitor.check_altitude. -/
noncomputable def check_altitude (s : MonitorState) : MonitorState × Bool :=
  match s.vehicle with
  | none => (s, true)
  | some v =>
    if v.alt > s.config.max_altitude then
      (log_warning s (.altitudeExceeded v.alt s.config.max_altitude), false)
    else (s, true)

/-- SafetyMonitor.check_battery. -/
noncomputable def check_battery (s : MonitorState) : MonitorState × Bool :=
  match s.vehicle with
  | none => (s, true)
  | some v =>
    if v.batteryLevel < s.config.min_battery then
      (log_warning s (.lowBattery v.batteryLevel s.config.min_battery), false)
    else (s, true)

/-- SafetyMonitor.check_tilt: pitch and roll arrive in radians and are
converted to degrees before the threshold comparison. -/
noncomputable def check_tilt (s : MonitorState) : MonitorState × Bool :=
  match s.vehicle with
  | none => (s, true)
  | some v =>
    let pitch_deg := degrees v.pitch
    let roll_deg := degrees v.roll
    if |pitch_deg| > s.config.max_tilt_angle ∨ |roll_deg| > s.config.max_tilt_angle then
      (log_warning s (.excessiveTilt pitch_deg roll_deg), false)
    else (s, true)

/-- SafetyMonitor.check_geofence: vacuously passes with no vehicle, with
the geofence disabled, or while either home coordinate is None. -/
noncomputable def check_geofence (s : MonitorState) : MonitorState × Bool :=
  match s.vehicle, s.config.geofence_enabled with
  | none, _ => (s, true)
  | some _, false => (s, true)
  | some v, true =>
    match s.home_lat, s.home_lon with
    | some hlat, some hlon =>
      let distance := calculate_distance hlat hlon v.lat v.lon
      if distance > s.config.geofence_radius then
        (log_warning s (.geofenceBreach distance s.config.geofence_radius), false)
      else (s, true)
    | _, _ => (s, true)

/-- SafetyMonitor.is_safe: with no vehicle, true (simulation mode);
otherwise the Python conjunction short-circuits, so each check runs
only if all earlier ones passed, and failing checks append to the log. -/
noncomputable def is_safe (s : MonitorState) : MonitorState × Bool :=
  match s.vehicle with
  | none => (s, true)
  | some _ =>
    let ra := check_altitude s
    if !ra.2 then (ra.1, false)
    else
      let rb := check_battery ra.1
      if !rb.2 then (rb.1, false)
      else
        let rt := check_tilt rb.1
        if !rt.2 then (rt.1, false)
        else check_geofence rt.1

/-- One iteration of SafetyMonitor._monitor_loop (the 0.5 s sleep aside):
when a vehicle is attached the four checks run in the fixed order
altitude, battery, tilt, geofence, their results are discarded, and no
further call is made — in particular the loop body issues no command. -/
noncomputable def monitorTick (s : MonitorState) : MonitorState × List Command :=
  match s.vehicle with
  | none => (s, [])
  | some _ =>
    let r1 := check_altitude s
    let r2 := check_battery r1.1
    let r3 := check_tilt r2.1
    let r4 := check_geofence r3.1
    (r4.1, [])

/-- SafetyMonitor.set_home_position: with a vehicle, records its current
position; with no vehicle, stores the mock home position (0.0, 0.0). -/
def set_home_position (s : MonitorState) : MonitorState :=
  match s.vehicle with
  | some v => {s with home_lat := some v.lat, home_lon := some v.lon}
  | none => {s with home_lat := some 0, home_lon := some 0}

/-- SafetyMonitor.return_to_home: with a vehicle, assigns mode RTL. -/
def return_to_home (s : MonitorState) : MonitorState × List Command :=
  match s.vehicle with
  | some v => ({s with vehicle := some {v with mode := "RTL"}}, [.setMode "RTL"])
  | none => (s, [])

/-- SafetyMonitor.emergency_land: with a vehicle, assigns mode LAND. -/
def emergency_land (s : MonitorState) : MonitorState × List Command :=
  match s.vehicle with
  | some v => ({s with vehicle := some {v with mode := "LAND"}}, [.setMode "LAND"])
  | none => (s, [])

/-- SafetyMonitor.descend_to_safe_altitude: computes 0.8 × max_altitude
and prints it, but issues no command and changes no state (the source
comment defers the implementation to another module). -/
def descend_to_safe_altitude (s : MonitorState) : MonitorState × List Command :=
  (s, [])

/-- SafetyMonitor.handle_emergency. If the guard flag is set, return at
once. Otherwise set the flag; with no vehicle, return there — before the
try/finally, so the flag stays set. With a vehicle, re-run the checks in
priority order battery, tilt, geofence, altitude (each check called only
if the previous ones passed, and appending to the log when it fails),
take the first failing branch's action, and clear the flag on exit from
the try block. No modelled operation raises, so the except branch
(fallback emergency_land) is unreachable here. -/
noncomputable def handle_emergency (s : MonitorState) : MonitorState × List Command :=
  if s.emergency_triggered then (s, [])
  else
    let s1 := {s with emergency_triggered := true}
    match s1.vehicle with
    | none => (s1, [])
    | some _ =>
      let rb := check_battery s1
      if !rb.2 then
        let r := return_to_home rb.1
        ({r.1 with emergency_triggered := false}, r.2)
      else
        let rt := check_tilt rb.1
        if !rt.2 then
          let r := emergency_land rt.1
          ({r.1 with emergency_triggered := false}, r.2)
        else
          let rg := check_geofence rt.1
          if !rg.2 then
            let r := return_to_home rg.1
            ({r.1 with emergency_triggered := false}, r.2)
          else
            let ra := check_altitude rg.1
            if !ra.2 then
              let r := descend_to_safe_altitude ra.1
              ({r.1 with emergency_triggered := false}, r.2)
            else ({ra.1 with emergency_triggered := false}, [])

/-- A value of the status dictionary returned by get_safety_status. -/
inductive StatusValue where
  | bool (b : Bool)
  | str (s : String)
  | real (x : ℝ)
  | nat (n : ℕ)


/-- SafetyMonitor.get_safety_status, as the (key, value) list of the
returned dictionary, in source order. With no vehicle the fixed
simulation report is returned. With a vehicle, the distance from home is
computed first — guarded by Python truthiness of the home coordinates,
so a home latitude or longitude equal to 0.0 selects the 0 branch just
as None does — and then the dictionary is built; evaluating its first
value calls is_safe, whose check calls may append to the log before the
warnings count (the last value) reads the log's length. -/
noncomputable def get_safety_status (s : MonitorState) :
    MonitorState × List (String × StatusValue) :=
  match s.vehicle with
  | none =>
    (s, [("safe", .bool true), ("mode", .str "SIMULATION"), ("altitude", .real 0),
      ("battery", .real 100), ("tilt", .real 0), ("distance_from_home", .real 0)])
  | some v =>
    let current_lat := v.lat
    let current_lon := v.lon
    let distance :=
      match s.home_lat, s.home_lon with
      | some hlat, some hlon =>
        if hlat ≠ 0 ∧ hlon ≠ 0 then calculate_distance hlat hlon current_lat current_lon
        else 0
      | _, _ => 0
    let r := is_safe s
    (r.1, [("safe", .bool r.2), ("mode", .str v.mode), ("altitude", .real v.alt),
      ("battery", .real v.batteryLevel), ("tilt_pitch", .real (degrees v.pitch)),
      ("tilt_roll", .real (degrees v.roll)), ("distance_from_home", .real distance),
      ("warnings", .nat r.1.safety_log.length)])

/-! ### Log export file format

SafetyMonitor.log_warning formats each entry as the text
`[<timestamp>] <message>` and SafetyMonitor.save_log writes the header
line, a blank line, then one entry per line. Text is modelled at the
character-list level so that line splitting is a plain recursion. -/

/-- The header line of the exported log file. -/
def headerLine : List Char := "=== Drone Safety Log ===".data

/-- The text of one log entry, as built by SafetyMonitor.log_warning. -/
def formatEntry (ts msg : List Char) : List Char :=
  '[' :: (ts ++ (']' :: ' ' :: msg))

/-- The full text written by SafetyMonitor.save_log: header, blank line,
then each stored entry followed by a newline. -/
def renderFile (entries : List (List Char)) : List Char :=
  headerLine ++ '\n' :: '\n' :: (entries.map (fun e => e ++ ['\n'])).flatten

/-- Split a text into its lines at newline characters (a trailing newline
yields a final empty line, as Python's write calls produce). -/
def splitLines : List Char → List (List Char)
  | [] => [[]]
  | c :: cs =>
    if c = '\n' then [] :: splitLines cs
    else
      match splitLines cs with
      | [] => [[c]]
      | l :: ls => (c :: l) :: ls

/-- Parse one `[<timestamp>] <message>` line back into its pair. -/
def parseEntry (line : List Char) : Option (List Char × List Char) :=
  match line with
  | '[' :: rest =>
    match rest.dropWhile (fun c => c ≠ ']') with
    | ']' :: ' ' :: msg => some (rest.takeWhile (fun c => c ≠ ']'), msg)
    | _ => none
  | _ => none

/-- Parse every line of the body, failing if any line is malformed. -/
def parseEntries : List (List Char) → Option (List (List Char × List Char))
  | [] => some []
  | l :: ls =>
    match parseEntry l, parseEntries ls with
    | some e, some es => some (e :: es)
    | _, _ => none

/-- Parse an exported log file back into its (timestamp, message) pairs:
check the header line, the blank line and the trailing newline, then
parse each entry line. -/
def parseLog (content : List Char) : Option (List (List Char × List Char)) :=
  match splitLines content with
  | h :: blank :: rest =>
    if h = headerLine ∧ blank = [] ∧ rest.getLast? = some [] then
      parseEntries rest.dropLast
    else none
  | _ => none

/-! ### Concrete states used by witnesses and counterexamples -/

/-- The default configuration of SafetyMonitor.__init__ (and of the
module's self-test). -/
def testConfig : Config :=
  { max_altitude := 10, min_battery := 20, max_tilt_angle := 45,
    geofence_enabled := true, geofence_radius := 100 }

/-- A healthy vehicle snapshot (the module's MockVehicle values). -/
def mockVehicle : Vehicle :=
  { lat := 13.7563, lon := 100.5018, alt := 5, batteryLevel := 80,
    pitch := 0, roll := 0, mode := "GUIDED" }

/-- A concrete logged sequence: one timestamped low-battery warning. -/
def samplePairs : List (List Char × List Char) :=
  [("2024-01-01 00:00:00".data, "Low battery: 15% < 20%".data)]

/-- A monitor with the mock vehicle attached, home unset, not in an
emergency, with an empty log. -/
def baseState : MonitorState :=
  { vehicle := some mockVehicle, config := testConfig, home_lat := none,
    home_lon := none, monitoring := true, emergency_triggered := false,
    safety_log := [] }

/-- The mock vehicle with a critically low battery. -/
def lowBatteryVehicle : Vehicle := { mockVehicle with batteryLevel := 10 }

/-- A monitor whose vehicle fails the battery check (10 % < 20 %). -/
def lowBatteryState : MonitorState :=
  { baseState with vehicle := some lowBatteryVehicle }

/-- A monitor whose vehicle fails both the battery check and the tilt
check (pitch of π rad = 180°), with home unset. -/
noncomputable def batteryTiltState : MonitorState :=
  { baseState with vehicle := some { lowBatteryVehicle with pitch := Real.pi } }

/-- A monitor with no vehicle attached. -/
def noVehicleState : MonitorState :=
  { baseState with vehicle := none }

/-- A monitor already handling an emergency (guard flag set). -/
def guardedState : MonitorState :=
  { lowBatteryState with emergency_triggered := true }

/-- A monitor with no vehicle whose home position is already set. -/
def staleHomeState : MonitorState :=
  { noVehicleState with home_lat := some 5, home_lon := some 6 }

/-- A monitor whose home latitude is 0.0 (a point on the equator) while
the vehicle is far away. -/
def zeroHomeState : MonitorState :=
  { baseState with home_lat := some 0, home_lon := some 50 }

/-! ### Basic facts about the embedded operations -/

theorem log_warning_vehicle (s : MonitorState) (w : Warning) :
    (log_warning s w).vehicle = s.vehicle := rfl

theorem log_warning_config (s : MonitorState) (w : Warning) :
    (log_warning s w).config = s.config := rfl

theorem log_warning_home_lat (s : MonitorState) (w : Warning) :
    (log_warning s w).home_lat = s.home_lat := rfl

theorem log_warning_home_lon (s : MonitorState) (w : Warning) :
    (log_warning s w).home_lon = s.home_lon := rfl

theorem degrees_zero : degrees 0 = 0 := by
  simp [degrees]

theorem degrees_pi : degrees Real.pi = 180 := by
  unfold degrees
  rw [mul_comm, mul_div_assoc, div_self Real.pi_ne_zero, mul_one]

theorem check_altitude_pass (s : MonitorState) (v : Vehicle) (hv : s.vehicle = some v)
    (h : ¬v.alt > s.config.max_altitude) : check_altitude s = (s, true) := by
  simp only [check_altitude, hv]
  rw [if_neg h]

theorem check_battery_pass (s : MonitorState) (v : Vehicle) (hv : s.vehicle = some v)
    (h : ¬v.batteryLevel < s.config.min_battery) : check_battery s = (s, true) := by
  simp only [check_battery, hv]
  rw [if_neg h]

theorem check_battery_fail (s : MonitorState) (v : Vehicle) (hv : s.vehicle = some v)
    (h : v.batteryLevel < s.config.min_battery) :
    check_battery s =
      (log_warning s (.lowBattery v.batteryLevel s.config.min_battery), false) := by
  simp only [check_battery, hv]
  rw [if_pos h]

theorem check_tilt_pass (s : MonitorState) (v : Vehicle) (hv : s.vehicle = some v)
    (hp : ¬|degrees v.pitch| > s.config.max_tilt_angle)
    (hr : ¬|degrees v.roll| > s.config.max_tilt_angle) : check_tilt s = (s, true) := by
  simp only [check_tilt, hv]
  rw [if_neg (by push_neg at hp hr ⊢; exact ⟨hp, hr⟩)]

theorem check_geofence_pass (s : MonitorState) (v : Vehicle) (hv : s.vehicle = some v)
    (h : s.config.geofence_enabled = false ∨ s.home_lat = none ∨ s.home_lon = none ∨
      ∀ hlat hlon, s.home_lat = some hlat → s.home_lon = some hlon →
        ¬calculate_distance hlat hlon v.lat v.lon > s.config.geofence_radius) :
    check_geofence s = (s, true) := by
  rcases hge : s.config.geofence_enabled with _ | _
  · simp only [check_geofence, hv, hge]
  · rcases hla : s.home_lat with _ | hlat
    · simp only [check_geofence, hv, hge, hla]
    · rcases hlo : s.home_lon with _ | hlon
      · simp only [check_geofence, hv, hge, hla, hlo]
      · rcases h with h | h | h | h
        · rw [hge] at h; cases h
        · rw [hla] at h; cases h
        · rw [hlo] at h; cases h
        · simp only [check_geofence, hv, hge, hla, hlo]
          rw [if_neg (h hlat hlon hla hlo)]

theorem handle_emergency_rtl_of_low_battery (s : MonitorState) (v : Vehicle)
    (hv : s.vehicle = some v) (hg : s.emergency_triggered = false)
    (hb : v.batteryLevel < s.config.min_battery) :
    (handle_emergency s).2 = [Command.setMode "RTL"] := by
  obtain ⟨veh, cfg, hla, hlo, mon, em, log⟩ := s
  dsimp only at hv hg hb
  subst hv hg
  simp only [handle_emergency]
  rw [check_battery_fail _ v rfl hb]
  rfl

/-! ### Claim theorems -/

/-- C4: invoking handle_emergency while the guard flag emergency_triggered
is already set is a no-op: the state is returned unchanged and no vehicle
command is issued, so overlapping dispatch requests produce at most one
dispatched command. -/
theorem handle_emergency_noop_when_guarded (s : MonitorState)
    (h : s.emergency_triggered = true) : handle_emergency s = (s, []) := by
  simp only [handle_emergency, h, if_true]

/-- Witness for C4 at a concrete guarded state. -/
theorem handle_emergency_noop_when_guarded_witness :
    guardedState.emergency_triggered = true ∧ handle_emergency guardedState = (guardedState, []) :=
  ⟨rfl, handle_emergency_noop_when_guarded guardedState rfl⟩

/-- C3 is false as stated: with no vehicle attached and the guard free,
handle_emergency sets the guard flag and returns before the try/finally
block, so emergency_triggered is still true when the call returns. -/
theorem handle_emergency_guard_stuck :
    noVehicleState.emergency_triggered = false ∧
    (handle_emergency noVehicleState).1.emergency_triggered = true :=
  ⟨rfl, rfl⟩

/-- C3 (amended): when handle_emergency is invoked with the guard free,
the guard flag is false on return exactly when a vehicle is attached; on
the no-vehicle early return the flag remains set; and when the guard was
already set on entry the call returns with it still set. -/
theorem handle_emergency_guard_release (s : MonitorState) :
    (s.emergency_triggered = false →
      (handle_emergency s).1.emergency_triggered = s.vehicle.isNone) ∧
    (s.emergency_triggered = true →
      (handle_emergency s).1.emergency_triggered = true) := by
  constructor
  · intro h
    obtain ⟨veh, cfg, hla, hlo, mon, em, log⟩ := s
    dsimp only at h ⊢
    subst h
    cases veh with
    | none => rfl
    | some v =>
      simp only [handle_emergency]
      split
      · rfl
      · split
        · rfl
        · split
          · rfl
          · split
            · rfl
            · split <;> rfl
  · intro h
    simp only [handle_emergency]
    rw [if_pos h]
    exact h

/-- Witness for C3's amended statement, exercising both clauses: a state
with a vehicle attached and the guard free (flag released on return), and
a state with the guard already set on entry (flag still set on return). -/
theorem handle_emergency_guard_release_witness :
    (baseState.emergency_triggered = false ∧
      (handle_emergency baseState).1.emergency_triggered = baseState.vehicle.isNone) ∧
    (guardedState.emergency_triggered = true ∧
      (handle_emergency guardedState).1.emergency_triggered = true) :=
  ⟨⟨rfl, (handle_emergency_guard_release baseState).1 rfl⟩,
    ⟨rfl, (handle_emergency_guard_release guardedState).2 rfl⟩⟩

/-- C2 is false as stated: with home unset and both the battery check and
the tilt check failing, the dispatcher still issues return-to-launch
(battery has unconditional priority; return_to_home never consults the
home position), not the emergency-land command the claim predicts. -/
theorem battery_priority_ignores_home :
    batteryTiltState.home_lat = none ∧
    (check_battery batteryTiltState).2 = false ∧
    (check_tilt batteryTiltState).2 = false ∧
    (handle_emergency batteryTiltState).2 = [Command.setMode "RTL"] ∧
    Command.setMode "RTL" ≠ Command.setMode "LAND" := by
  have hv : batteryTiltState.vehicle = some { lowBatteryVehicle with pitch := Real.pi } := rfl
  refine ⟨rfl, ?_, ?_, ?_, by decide⟩
  · rw [check_battery_fail batteryTiltState _ hv (by norm_num [batteryTiltState,
      lowBatteryVehicle, mockVehicle, baseState, testConfig])]
  · simp only [check_tilt, hv]
    rw [if_pos (Or.inl (by
      show |degrees Real.pi| > batteryTiltState.config.max_tilt_angle
      rw [degrees_pi]
      norm_num [batteryTiltState, baseState, testConfig]))]
  · exact handle_emergency_rtl_of_low_battery batteryTiltState _ hv rfl
      (by norm_num [batteryTiltState, lowBatteryVehicle, mockVehicle, baseState, testConfig])

/-- C2 (amended): whenever the guard is free, a vehicle is attached, and
both the battery check and the tilt check fail, battery takes priority
unconditionally: the dispatcher issues exactly the one return-to-launch
command, never the emergency-land command, whether or not home is set. -/
theorem handle_emergency_battery_priority (s : MonitorState) (v : Vehicle)
    (hv : s.vehicle = some v) (hg : s.emergency_triggered = false)
    (hb : v.batteryLevel < s.config.min_battery)
    (_ht : |degrees v.pitch| > s.config.max_tilt_angle ∨
      |degrees v.roll| > s.config.max_tilt_angle) :
    (handle_emergency s).2 = [Command.setMode "RTL"] :=
  handle_emergency_rtl_of_low_battery s v hv hg hb

/-- Witness for C2's amended statement: home unset, battery at 10 % and
pitch π rad (180°), and the dispatched command is return-to-launch. -/
theorem handle_emergency_battery_priority_witness :
    batteryTiltState.vehicle = some { lowBatteryVehicle with pitch := Real.pi } ∧
    batteryTiltState.emergency_triggered = false ∧
    ({ lowBatteryVehicle with pitch := Real.pi } : Vehicle).batteryLevel <
      batteryTiltState.config.min_battery ∧
    (|degrees ({ lowBatteryVehicle with pitch := Real.pi } : Vehicle).pitch| >
        batteryTiltState.config.max_tilt_angle ∨
      |degrees ({ lowBatteryVehicle with pitch := Real.pi } : Vehicle).roll| >
        batteryTiltState.config.max_tilt_angle) ∧
    (handle_emergency batteryTiltState).2 = [Command.setMode "RTL"] := by
  have hb : ({ lowBatteryVehicle with pitch := Real.pi } : Vehicle).batteryLevel <
      batteryTiltState.config.min_battery := by
    norm_num [batteryTiltState, lowBatteryVehicle, mockVehicle, baseState, testConfig]
  have ht : |degrees ({ lowBatteryVehicle with pitch := Real.pi } : Vehicle).pitch| >
      batteryTiltState.config.max_tilt_angle := by
    show |degrees Real.pi| > batteryTiltState.config.max_tilt_angle
    rw [degrees_pi]
    norm_num [batteryTiltState, baseState, testConfig]
  exact ⟨rfl, rfl, hb, Or.inl ht,
    handle_emergency_battery_priority batteryTiltState _ rfl rfl hb (Or.inl ht)⟩

/-- C6 is false as stated: with no vehicle attached, set_home_position is
not a no-op on the home position — it overwrites it with the mock home
(0.0, 0.0). -/
theorem set_home_mock_not_noop :
    staleHomeState.vehicle = none ∧
    (set_home_position staleHomeState).home_lat ≠ staleHomeState.home_lat := by
  refine ⟨rfl, ?_⟩
  simp only [set_home_position, staleHomeState, noVehicleState, baseState]
  norm_num

/-- C6 (amended): with no vehicle attached, set_home_position stores the
mock home position (0.0, 0.0) (logging a warning); with a vehicle it
records the vehicle's current latitude and longitude; in both cases every
other field of the monitor state is unchanged. -/
theorem set_home_position_spec (s : MonitorState) :
    (s.vehicle = none → (set_home_position s).home_lat = some 0 ∧
      (set_home_position s).home_lon = some 0) ∧
    (∀ v, s.vehicle = some v → (set_home_position s).home_lat = some v.lat ∧
      (set_home_position s).home_lon = some v.lon) ∧
    (set_home_position s).vehicle = s.vehicle ∧
    (set_home_position s).config = s.config ∧
    (set_home_position s).monitoring = s.monitoring ∧
    (set_home_position s).emergency_triggered = s.emergency_triggered ∧
    (set_home_position s).safety_log = s.safety_log := by
  cases hv : s.vehicle <;> simp [set_home_position, hv]

/-- Witness for C6's amended statement at a concrete no-vehicle state. -/
theorem set_home_position_spec_witness :
    noVehicleState.vehicle = none ∧
    (set_home_position noVehicleState).home_lat = some 0 ∧
    (set_home_position noVehicleState).home_lon = some 0 :=
  ⟨rfl, ((set_home_position_spec noVehicleState).1 rfl).1,
    ((set_home_position_spec noVehicleState).1 rfl).2⟩

/-- C1: the background monitoring loop body runs the four checks in the
fixed order altitude, battery, tilt, geofence and appends a log entry for
every failing check, but it never invokes handle_emergency — on a tick
whose battery check fails it logs the warning and issues nothing, even
though handle_emergency at that very state would dispatch the
return-to-launch command. -/
theorem monitor_loop_never_dispatches :
    (∀ s, (monitorTick s).2 = []) ∧
    (monitorTick lowBatteryState).1.safety_log = [Warning.lowBattery 10 20] ∧
    (handle_emergency lowBatteryState).2 = [Command.setMode "RTL"] := by
  have hb : lowBatteryVehicle.batteryLevel < lowBatteryState.config.min_battery := by
    norm_num [lowBatteryState, lowBatteryVehicle, mockVehicle, baseState, testConfig]
  refine ⟨?_, ?_, handle_emergency_rtl_of_low_battery lowBatteryState lowBatteryVehicle rfl rfl hb⟩
  · intro s
    cases hv : s.vehicle <;> simp [monitorTick, hv]
  · have h1 : check_altitude lowBatteryState = (lowBatteryState, true) :=
      check_altitude_pass lowBatteryState lowBatteryVehicle rfl
        (by norm_num [lowBatteryState, lowBatteryVehicle, mockVehicle, baseState, testConfig])
    have h2 : check_battery lowBatteryState =
        (log_warning lowBatteryState (.lowBattery 10 20), false) :=
      check_battery_fail lowBatteryState lowBatteryVehicle rfl hb
    have h3 : check_tilt (log_warning lowBatteryState (.lowBattery 10 20)) =
        (log_warning lowBatteryState (.lowBattery 10 20), true) :=
      check_tilt_pass _ lowBatteryVehicle rfl
        (by show ¬|degrees 0| > _; rw [degrees_zero]
            norm_num [lowBatteryState, baseState, testConfig, log_warning])
        (by show ¬|degrees 0| > _; rw [degrees_zero]
            norm_num [lowBatteryState, baseState, testConfig, log_warning])
    have h4 : check_geofence (log_warning lowBatteryState (.lowBattery 10 20)) =
        (log_warning lowBatteryState (.lowBattery 10 20), true) :=
      check_geofence_pass _ lowBatteryVehicle rfl (Or.inr (Or.inl rfl))
    have hv : lowBatteryState.vehicle = some lowBatteryVehicle := rfl
    simp only [monitorTick, hv, h1, h2, h3, h4]
    simp [log_warning, lowBatteryState, baseState]

/-- C5: is_safe returns true whenever no vehicle is attached, and for an
attached vehicle whose snapshot is within the altitude, battery and tilt
thresholds and within the geofence (or with the geofence disabled or home
unset), is_safe returns true and leaves the state — in particular the
safety log — unchanged. -/
theorem is_safe_true_when_within_limits :
    (∀ s, s.vehicle = none → is_safe s = (s, true)) ∧
    (∀ s v, s.vehicle = some v →
      v.alt ≤ s.config.max_altitude →
      s.config.min_battery ≤ v.batteryLevel →
      |degrees v.pitch| ≤ s.config.max_tilt_angle →
      |degrees v.roll| ≤ s.config.max_tilt_angle →
      (s.config.geofence_enabled = false ∨ s.home_lat = none ∨ s.home_lon = none ∨
        ∀ hlat hlon, s.home_lat = some hlat → s.home_lon = some hlon →
          calculate_distance hlat hlon v.lat v.lon ≤ s.config.geofence_radius) →
      is_safe s = (s, true)) := by
  constructor
  · intro s hv
    simp only [is_safe, hv]
  · intro s v hv ha hb hp hr hg
    have h1 : check_altitude s = (s, true) := check_altitude_pass s v hv (not_lt.mpr ha)
    have h2 : check_battery s = (s, true) := check_battery_pass s v hv (not_lt.mpr hb)
    have h3 : check_tilt s = (s, true) := check_tilt_pass s v hv (not_lt.mpr hp) (not_lt.mpr hr)
    have h4 : check_geofence s = (s, true) := check_geofence_pass s v hv (by
      rcases hg with h | h | h | h
      exacts [Or.inl h, Or.inr (Or.inl h), Or.inr (Or.inr (Or.inl h)),
        Or.inr (Or.inr (Or.inr (fun hlat hlon e1 e2 => not_lt.mpr (h hlat hlon e1 e2))))])
    simp [is_safe, hv, h1, h2, h3, h4]

/-- Witness for C5 at the module's mock vehicle (altitude 5 ≤ 10, battery
80 ≥ 20, level attitude, home unset). -/
theorem is_safe_true_when_within_limits_witness :
    baseState.vehicle = some mockVehicle ∧
    mockVehicle.alt ≤ baseState.config.max_altitude ∧
    baseState.config.min_battery ≤ mockVehicle.batteryLevel ∧
    |degrees mockVehicle.pitch| ≤ baseState.config.max_tilt_angle ∧
    |degrees mockVehicle.roll| ≤ baseState.config.max_tilt_angle ∧
    baseState.home_lat = none ∧
    is_safe baseState = (baseState, true) := by
  have hp : |degrees mockVehicle.pitch| ≤ baseState.config.max_tilt_angle := by
    show |degrees 0| ≤ _
    rw [degrees_zero]
    norm_num [baseState, testConfig]
  have hr : |degrees mockVehicle.roll| ≤ baseState.config.max_tilt_angle := by
    show |degrees 0| ≤ _
    rw [degrees_zero]
    norm_num [baseState, testConfig]
  have ha : mockVehicle.alt ≤ baseState.config.max_altitude := by
    norm_num [mockVehicle, baseState, testConfig]
  have hb : baseState.config.min_battery ≤ mockVehicle.batteryLevel := by
    norm_num [mockVehicle, baseState, testConfig]
  exact ⟨rfl, ha, hb, hp, hr, rfl,
    is_safe_true_when_within_limits.2 baseState mockVehicle rfl ha hb hp hr
      (Or.inr (Or.inl rfl))⟩

/-- C7 is false as stated: with no vehicle attached the status report does
not have the claimed field set — it has a single tilt field instead of
tilt_pitch and tilt_roll and carries no warnings count at all. -/
theorem status_fields_differ_without_vehicle :
    (get_safety_status noVehicleState).2.map Prod.fst ≠
      ["safe", "mode", "altitude", "battery", "tilt_pitch", "tilt_roll",
        "distance_from_home", "warnings"] ∧
    (get_safety_status noVehicleState).2.lookup "warnings" = none := by
  exact ⟨by decide, rfl⟩

/-- C7 (amended): with a vehicle attached the status report has exactly
the fields safe, mode, altitude, battery, tilt_pitch, tilt_roll,
distance_from_home, warnings, in that order, and warnings equals the log
entry count of the state the report returns (the log after the embedded
is_safe call); with no vehicle attached the report instead has exactly the
fixed simulation fields safe, mode, altitude, battery, tilt,
distance_from_home and no warnings entry. -/
theorem get_safety_status_fields (s : MonitorState) :
    (s.vehicle = none →
      (get_safety_status s).2.map Prod.fst =
        ["safe", "mode", "altitude", "battery", "tilt", "distance_from_home"] ∧
      (get_safety_status s).2.lookup "warnings" = none) ∧
    (∀ v, s.vehicle = some v →
      (get_safety_status s).2.map Prod.fst =
        ["safe", "mode", "altitude", "battery", "tilt_pitch", "tilt_roll",
          "distance_from_home", "warnings"] ∧
      (get_safety_status s).2.lookup "warnings" =
        some (.nat (get_safety_status s).1.safety_log.length)) := by
  constructor
  · intro hv
    constructor
    · simp [get_safety_status, hv]
    · simp only [get_safety_status, hv]
      rfl
  · intro v hv
    constructor
    · simp [get_safety_status, hv]
    · simp only [get_safety_status, hv]
      rfl

/-- Witness for C7's amended statement at a concrete state with the mock
vehicle attached. -/
theorem get_safety_status_fields_witness :
    baseState.vehicle = some mockVehicle ∧
    (get_safety_status baseState).2.map Prod.fst =
      ["safe", "mode", "altitude", "battery", "tilt_pitch", "tilt_roll",
        "distance_from_home", "warnings"] :=
  ⟨rfl, ((get_safety_status_fields baseState).2 mockVehicle rfl).1⟩

/-- C10: with a vehicle attached, whenever the stored home latitude or
home longitude equals 0.0 the status report's distance_from_home is 0
regardless of the vehicle's actual position, because the source tests the
home coordinates for Python truthiness (0.0 is falsy, like None) rather
than for being unset. -/
theorem zero_home_reports_zero_distance (s : MonitorState) (v : Vehicle)
    (hv : s.vehicle = some v) (h : s.home_lat = some 0 ∨ s.home_lon = some 0) :
    (get_safety_status s).2.lookup "distance_from_home" = some (.real 0) := by
  rcases h with h | h
  · rcases hlo : s.home_lon with _ | x
    · simp [get_safety_status, hv, h, hlo]
      rfl
    · simp [get_safety_status, hv, h, hlo]
      rfl
  · rcases hla : s.home_lat with _ | y
    · simp [get_safety_status, hv, h, hla]
      rfl
    · simp [get_safety_status, hv, h, hla]
      rfl

/-- Witness for C10: home (0.0, 50.0) on the equator with the mock vehicle
at latitude 13.7563, yet the reported distance from home is 0. -/
theorem zero_home_reports_zero_distance_witness :
    zeroHomeState.vehicle = some mockVehicle ∧
    (zeroHomeState.home_lat = some 0 ∨ zeroHomeState.home_lon = some 0) ∧
    (get_safety_status zeroHomeState).2.lookup "distance_from_home" = some (.real 0) :=
  ⟨rfl, Or.inl rfl, zero_home_reports_zero_distance zeroHomeState mockVehicle rfl (Or.inl rfl)⟩

/-- C8: the haversine distance vanishes on identical coordinates and is
symmetric in its two coordinate pairs (the real-arithmetic reading of the
double-precision source). -/
theorem calculate_distance_refl_and_symm :
    (∀ lat lon, calculate_distance lat lon lat lon = 0) ∧
    (∀ lat1 lon1 lat2 lon2, calculate_distance lat1 lon1 lat2 lon2 =
      calculate_distance lat2 lon2 lat1 lon1) := by
  have hatan : atan2 0 1 = 0 := by
    rw [atan2, if_pos one_pos]
    simp [Real.arctan_zero]
  constructor
  · intro lat lon
    simp only [calculate_distance, radians, sub_self, zero_mul, zero_div,
      Real.sin_zero, ne_eq, OfNat.ofNat_ne_zero, not_false_iff, zero_pow,
      mul_zero, add_zero, sub_zero, Real.sqrt_zero, Real.sqrt_one, hatan]
  · intro lat1 lon1 lat2 lon2
    have key : ∀ x y : ℝ, Real.sin ((x - y) * Real.pi / 180 / 2) ^ 2 =
        Real.sin ((y - x) * Real.pi / 180 / 2) ^ 2 := by
      intro x y
      have h : (x - y) * Real.pi / 180 / 2 = -((y - x) * Real.pi / 180 / 2) := by ring
      rw [h, Real.sin_neg, neg_sq]
    simp only [calculate_distance, radians]
    rw [key lat2 lat1, key lon2 lon1, mul_comm (Real.cos (lat1 * Real.pi / 180))
      (Real.cos (lat2 * Real.pi / 180))]

/-! ### Round-trip lemmas for the exported log file -/

theorem splitLines_cons (c : Char) (cs : List Char) :
    splitLines (c :: cs) = if c = '\n' then [] :: splitLines cs
      else match splitLines cs with
        | [] => [[c]]
        | l :: ls => (c :: l) :: ls := rfl

theorem splitLines_newline_cons (rest : List Char) :
    splitLines ('\n' :: rest) = [] :: splitLines rest := rfl

theorem splitLines_append_newline (xs rest : List Char) (h : '\n' ∉ xs) :
    splitLines (xs ++ '\n' :: rest) = xs :: splitLines rest := by
  induction xs with
  | nil => simp [splitLines]
  | cons c cs ih =>
    have hc : c ≠ '\n' := fun e => h (e ▸ List.mem_cons_self c cs)
    have h' : '\n' ∉ cs := fun e => h (List.mem_cons_of_mem c e)
    rw [List.cons_append, splitLines_cons, if_neg hc, ih h']

theorem splitLines_flatten (lines : List (List Char))
    (h : ∀ l ∈ lines, '\n' ∉ l) :
    splitLines ((lines.map (fun e => e ++ ['\n'])).flatten) = lines ++ [[]] := by
  induction lines with
  | nil => simp [splitLines]
  | cons l ls ih =>
    simp only [List.map_cons, List.flatten_cons, List.append_assoc, List.singleton_append]
    rw [splitLines_append_newline l _ (h l (List.mem_cons_self l ls)),
      ih (fun x hx => h x (List.mem_cons_of_mem l hx))]
    rfl

theorem dropWhile_past_delim (ts tail : List Char) (h : ']' ∉ ts) :
    (ts ++ ']' :: tail).dropWhile (fun c => c ≠ ']') = ']' :: tail := by
  induction ts with
  | nil =>
    rw [List.nil_append, List.dropWhile_cons, if_neg (by simp)]
  | cons c cs ih =>
    have hc : c ≠ ']' := fun e => h (e ▸ List.mem_cons_self c cs)
    have h' : ']' ∉ cs := fun e => h (List.mem_cons_of_mem c e)
    rw [List.cons_append, List.dropWhile_cons, if_pos (by simp [hc]), ih h']

theorem takeWhile_before_delim (ts tail : List Char) (h : ']' ∉ ts) :
    (ts ++ ']' :: tail).takeWhile (fun c => c ≠ ']') = ts := by
  induction ts with
  | nil =>
    rw [List.nil_append, List.takeWhile_cons, if_neg (by simp)]
  | cons c cs ih =>
    have hc : c ≠ ']' := fun e => h (e ▸ List.mem_cons_self c cs)
    have h' : ']' ∉ cs := fun e => h (List.mem_cons_of_mem c e)
    rw [List.cons_append, List.takeWhile_cons, if_pos (by simp [hc]), ih h']

theorem parseEntry_formatEntry (ts msg : List Char) (h : ']' ∉ ts) :
    parseEntry (formatEntry ts msg) = some (ts, msg) := by
  simp only [parseEntry, formatEntry, dropWhile_past_delim ts _ h,
    takeWhile_before_delim ts _ h]

theorem parseEntries_map (pairs : List (List Char × List Char))
    (h : ∀ p ∈ pairs, ']' ∉ p.1) :
    parseEntries (pairs.map (fun p => formatEntry p.1 p.2)) = some pairs := by
  induction pairs with
  | nil => rfl
  | cons p ps ih =>
    obtain ⟨ts, msg⟩ := p
    simp only [List.map_cons, parseEntries,
      parseEntry_formatEntry ts msg (h _ (List.mem_cons_self _ _)),
      ih (fun q hq => h q (List.mem_cons_of_mem _ hq))]

theorem formatEntry_no_newline (ts msg : List Char) (h1 : '\n' ∉ ts)
    (h2 : '\n' ∉ msg) : '\n' ∉ formatEntry ts msg := by
  intro hmem
  simp only [formatEntry, List.mem_cons, List.mem_append] at hmem
  rcases hmem with h | (h | (h | (h | h)))
  · cases h
  · exact h1 h
  · cases h
  · cases h
  · exact h2 h

/-- C9: exporting the log writes the header line, a blank line, then one
line per entry in append order, each of the form an opening bracket, the
timestamp, a closing bracket, a space and the message; parsing such a
file back recovers exactly the logged ordered sequence of
(timestamp, message) pairs, provided each timestamp contains no closing
bracket and no newline and each message contains no newline (as the
source's fixed-format timestamps and single-line diagnostics satisfy). -/
theorem save_log_roundtrip (pairs : List (List Char × List Char))
    (h : ∀ p ∈ pairs, (']' ∉ p.1 ∧ '\n' ∉ p.1) ∧ '\n' ∉ p.2) :
    parseLog (renderFile (pairs.map (fun p => formatEntry p.1 p.2))) = some pairs := by
  have hlines : ∀ l ∈ pairs.map (fun p => formatEntry p.1 p.2), '\n' ∉ l := by
    intro l hl
    obtain ⟨p, hp, rfl⟩ := List.mem_map.mp hl
    exact formatEntry_no_newline p.1 p.2 (h p hp).1.2 (h p hp).2
  have hsplit : splitLines (renderFile (pairs.map (fun p => formatEntry p.1 p.2))) =
      headerLine :: [] :: ((pairs.map (fun p => formatEntry p.1 p.2)) ++ [[]]) := by
    rw [renderFile, splitLines_append_newline headerLine _ (by decide),
      splitLines_newline_cons, splitLines_flatten _ hlines]
  simp only [parseLog, hsplit, List.getLast?_concat, List.dropLast_concat, and_self,
    eq_self_iff_true, true_and, if_true]
  exact parseEntries_map pairs (fun p hp => (h p hp).1.1)

/-- Witness for C9 at a concrete one-entry log. -/
theorem save_log_roundtrip_witness :
    (∀ p ∈ samplePairs, (']' ∉ p.1 ∧ '\n' ∉ p.1) ∧ '\n' ∉ p.2) ∧
    parseLog (renderFile (samplePairs.map (fun p => formatEntry p.1 p.2))) =
      some samplePairs :=
  ⟨by decide, save_log_roundtrip samplePairs (by decide)⟩

end SafetySystem
